import Mathlib

/-!
# Verification of the Service Cloud feature analyzer

A shallow embedding of `sfChecker/config/analyzer.py`: the feature
evaluator (`_analyze_feature` and its numbered steps), the status
decision (`_determine_status`), the aggregation logic from `analyze`
(weighted score, top gaps, quick wins), category scoring
(`_score_category`) and the roadmap builder (`_build_roadmap`).

Python `dict.get(k, default)` is embedded as `Option.getD`; a raw
subscript `d[k]` (which raises `KeyError` when the key is missing) is
embedded as a fallible `Option` bind, so a function that can raise
returns `Option _` with `none` standing for a raised exception.
Python `float` arithmetic on the small counts involved is embedded as
exact rational arithmetic (`ℚ`), and Python's `round(x, 1)`
(round-half-to-even) as `round1` below.
-/

/-- The three status constants `STATUS_USED`, `STATUS_PARTIAL`,
`STATUS_UNUSED`.  `_determine_status` only ever returns one of these
three strings, so the status is embedded as an enumeration. -/
inductive Status where
  | used
  | partialUse
  | unused
deriving DecidableEq

/-- The string value each `Status` stands for in the source. -/
def status_str : Status → String
  | .used => "used"
  | .partialUse => "partial"
  | .unused => "unused"

/-- Rank in the order `unused < partial < used` used by the
monotonicity claim. -/
def status_rank : Status → Nat
  | .unused => 0
  | .partialUse => 1
  | .used => 2

/-- Digit grouping for Python's `f"{n:,}"` format: insert a comma
after every third character of the reversed digit string. -/
def group3 : List Char → List Char
  | a :: b :: c :: d :: rest => a :: b :: c :: ',' :: group3 (d :: rest)
  | l => l

/-- Python's `f"{n:,}"`: decimal rendering with thousands separators. -/
def comma_fmt (n : Int) : String :=
  let s := toString n.natAbs
  let grouped := String.mk (group3 s.toList.reverse).reverse
  if n < 0 then "-" ++ grouped else grouped

/-- `needle in hay` on character lists (Python's substring operator). -/
def list_contains_sub (needle : List Char) : List Char → Bool
  | [] => needle.isEmpty
  | c :: t => needle.isPrefixOf (c :: t) || list_contains_sub needle t

/-- Python's `needle in hay` substring test on strings. -/
def str_contains (hay needle : String) : Bool :=
  list_contains_sub needle.toList hay.toList

/-!
## The status decision (`_determine_status`, analyzer.py lines 352-378)

The Python method receives the `signals` and `gaps` lists (the `feat`
argument is never used in its body) and branches on their lengths,
including the trailing fallback `return STATUS_UNUSED, 0.7`.
-/

/-- `FeatureAnalyzer._determine_status`.  Mirrors the source's four
`return` statements, including the final (unreachable) fallback. -/
def determine_status (signals gaps : List String) : Status × ℚ :=
  let sig_count := signals.length
  let gap_count := gaps.length
  if sig_count = 0 then (Status.unused, 0.9)
  else if 0 < sig_count ∧ gap_count = 0 then (Status.used, 0.95)
  else if 0 < sig_count ∧ 0 < gap_count then
    let ratio : ℚ := (sig_count : ℚ) / ((sig_count : ℚ) + (gap_count : ℚ))
    if ratio ≥ 0.7 then (Status.used, 0.8)
    else if ratio ≥ 0.35 then (Status.partialUse, 0.75)
    else (Status.partialUse, 0.65)
  else (Status.unused, 0.7)

/-- The tie-break table exactly as the specification words it, as a
function of the signal count `s` and gap count `g` (spec section 4.1
step 6).  Used to compare the code's decision against the spec. -/
def spec_status_table (s g : Nat) : Status × ℚ :=
  if s = 0 then (Status.unused, 0.9)
  else if g = 0 then (Status.used, 0.95)
  else
    let ratio : ℚ := (s : ℚ) / ((s : ℚ) + (g : ℚ))
    if ratio ≥ 0.7 then (Status.used, 0.8)
    else if 0.35 ≤ ratio ∧ ratio < 0.7 then (Status.partialUse, 0.75)
    else (Status.partialUse, 0.65)

/-- C1: the status decision agrees with the spec's tie-break table on
every input. -/
theorem determine_status_matches_spec_table (signals gaps : List String) :
    determine_status signals gaps = spec_status_table signals.length gaps.length := by
  unfold determine_status spec_status_table
  by_cases hs : signals.length = 0
  · simp [hs]
  · have hspos : 0 < signals.length := Nat.pos_of_ne_zero hs
    by_cases hg : gaps.length = 0
    · simp [hs, hg, hspos]
    · have hgpos : 0 < gaps.length := Nat.pos_of_ne_zero hg
      simp only [hs, hg, hspos, hgpos, if_false, and_true, true_and, if_true, and_self,
        not_false_eq_true]
      by_cases h7 : ((signals.length : ℚ) / ((signals.length : ℚ) + (gaps.length : ℚ))) ≥ 0.7
      · simp [h7]
      · by_cases h35 : ((signals.length : ℚ) / ((signals.length : ℚ) + (gaps.length : ℚ))) ≥ 0.35
        · have hlt : ((signals.length : ℚ) / ((signals.length : ℚ) + (gaps.length : ℚ))) < 0.7 :=
            lt_of_not_le h7
          simp [h7, h35, hlt]
        · simp [h7, h35]

/-- C10: the confidence returned is one of the five live values; the
trailing fallback pair `(unused, 0.7)` is never produced. -/
theorem determine_status_confidence_range (signals gaps : List String) :
    ((determine_status signals gaps).2 = 0.65 ∨ (determine_status signals gaps).2 = 0.75 ∨
      (determine_status signals gaps).2 = 0.8 ∨ (determine_status signals gaps).2 = 0.9 ∨
      (determine_status signals gaps).2 = 0.95) ∧
    determine_status signals gaps ≠ (Status.unused, 0.7) := by
  unfold determine_status
  by_cases hs : signals.length = 0
  · simp [hs]
    norm_num
  · have hspos : 0 < signals.length := Nat.pos_of_ne_zero hs
    by_cases hg : gaps.length = 0
    · simp [hs, hg, hspos]
    · have hgpos : 0 < gaps.length := Nat.pos_of_ne_zero hg
      simp only [hs, hg, hspos, hgpos, if_false, and_true, true_and, if_true, and_self,
        not_false_eq_true]
      by_cases h7 : ((signals.length : ℚ) / ((signals.length : ℚ) + (gaps.length : ℚ))) ≥ 0.7
      · simp [h7]
      · by_cases h35 : ((signals.length : ℚ) / ((signals.length : ℚ) + (gaps.length : ℚ))) ≥ 0.35
        · simp [h7, h35]
        · simp [h7, h35]

lemma status_rank_le_two (st : Status) : status_rank st ≤ 2 := by
  cases st <;> simp [status_rank]

lemma determine_status_rank_pos (signals gaps : List String)
    (hs : signals.length ≠ 0) (hg : gaps.length ≠ 0) :
    1 ≤ status_rank (determine_status signals gaps).1 := by
  unfold determine_status
  have hspos : 0 < signals.length := Nat.pos_of_ne_zero hs
  have hgpos : 0 < gaps.length := Nat.pos_of_ne_zero hg
  simp only [hs, hg, hspos, hgpos, if_false, and_true, true_and, if_true, and_self,
    not_false_eq_true]
  by_cases h7 : ((signals.length : ℚ) / ((signals.length : ℚ) + (gaps.length : ℚ))) ≥ 0.7
  · simp [h7, status_rank]
  · by_cases h35 : ((signals.length : ℚ) / ((signals.length : ℚ) + (gaps.length : ℚ))) ≥ 0.35
    · simp [h7, h35, status_rank]
    · simp [h7, h35, status_rank]

lemma ratio_antitone_in_gaps (s g1 g2 : Nat) (hs : 0 < s) (hg1 : 0 < g1) (hle : g1 ≤ g2) :
    (s : ℚ) / ((s : ℚ) + (g2 : ℚ)) ≤ (s : ℚ) / ((s : ℚ) + (g1 : ℚ)) := by
  have h1 : (0 : ℚ) < (s : ℚ) + (g1 : ℚ) := by positivity
  have h2 : ((s : ℚ) + (g1 : ℚ)) ≤ ((s : ℚ) + (g2 : ℚ)) := by
    have : (g1 : ℚ) ≤ (g2 : ℚ) := by exact_mod_cast hle
    linarith
  exact div_le_div_of_nonneg_left (by positivity) h1 h2

/-- C6: with the signal count held fixed, adding gaps never upgrades
the status in the order `unused < partial < used`. -/
theorem determine_status_monotone_in_gaps (signals gaps1 gaps2 : List String)
    (h : gaps1.length ≤ gaps2.length) :
    status_rank (determine_status signals gaps2).1 ≤
      status_rank (determine_status signals gaps1).1 := by
  by_cases hs : signals.length = 0
  · unfold determine_status
    simp [hs, status_rank]
  · have hspos : 0 < signals.length := Nat.pos_of_ne_zero hs
    by_cases hg1 : gaps1.length = 0
    · have : determine_status signals gaps1 = (Status.used, 0.95) := by
        unfold determine_status
        simp [hs, hg1, hspos]
      rw [this]
      exact status_rank_le_two _
    · have hg1pos : 0 < gaps1.length := Nat.pos_of_ne_zero hg1
      have hg2 : gaps2.length ≠ 0 := by omega
      have hg2pos : 0 < gaps2.length := Nat.pos_of_ne_zero hg2
      -- both sides take the ratio branch
      have hratio := ratio_antitone_in_gaps signals.length gaps1.length gaps2.length
        hspos hg1pos h
      by_cases h7 : ((signals.length : ℚ) / ((signals.length : ℚ) + (gaps2.length : ℚ))) ≥ 0.7
      · -- then the ratio for gaps1 also clears 0.7, so both are `used`
        have h7' : ((signals.length : ℚ) / ((signals.length : ℚ) + (gaps1.length : ℚ))) ≥ 0.7 :=
          le_trans h7 hratio
        have e2 : (determine_status signals gaps2).1 = Status.used := by
          unfold determine_status
          simp [hs, hg2, hspos, hg2pos, h7]
        have e1 : (determine_status signals gaps1).1 = Status.used := by
          unfold determine_status
          simp [hs, hg1, hspos, hg1pos, h7']
        rw [e1, e2]
      · -- gaps2 side is at most `partial`; gaps1 side ranks at least 1
        have r2 : status_rank (determine_status signals gaps2).1 ≤ 1 := by
          unfold determine_status
          by_cases h35 : ((signals.length : ℚ) / ((signals.length : ℚ) + (gaps2.length : ℚ))) ≥ 0.35
          · simp [hs, hg2, hspos, hg2pos, h7, h35, status_rank]
          · simp [hs, hg2, hspos, hg2pos, h7, h35, status_rank]
        have r1 : 1 ≤ status_rank (determine_status signals gaps1).1 :=
          determine_status_rank_pos signals gaps1 hs hg1
        omega

/-- Witness for C6 at a concrete input. -/
theorem determine_status_monotone_in_gaps_witness :
    ([] : List String).length ≤ ["g"].length ∧
      status_rank (determine_status ["a"] ["g"]).1 ≤
        status_rank (determine_status ["a"] []).1 :=
  ⟨by decide, determine_status_monotone_in_gaps ["a"] [] ["g"] (by decide)⟩

/-!
## Data model

`Feature` is one entry of the registry's `features` arrays with the
fields and `feat.get(...)` defaults used by `_analyze_feature`.
`Metadata` is the snapshot produced by the fetcher; every key access
in the source goes through `dict.get` (embedded as `Option` fields,
`none` = key absent) except for the raw subscripts noted below.
-/

/-- The `detection` sub-dict of a feature definition, with the
defaults used by `det.get(...)`. -/
structure Detection where
  object_names : List String := []
  soql_check : String := ""
  apex_classes : List String := []
deriving DecidableEq

/-- A feature definition as `_analyze_feature` consumes it.  `id` and
`name` are accessed with raw subscripts in the source and are
mandatory here; the remaining fields carry their `feat.get` defaults. -/
structure Feature where
  id : String
  name : String
  category : String := ""
  impact_score : Int := 50
  detection : Detection := {}
  recommendation : String := ""
  roi_metric : String := ""
  doc_url : String := ""
  license_requirement : String := "Service Cloud"
deriving DecidableEq

/-- `metadata["flows"]`: a dict read with `flows.get("total", 0)` and
one raw subscript `flows['total']`. -/
structure FlowsMap where
  total : Option Int := none
deriving DecidableEq

/-- `metadata["knowledge"]`. -/
structure KnowledgeMap where
  enabled : Option Bool := none
  article_count : Option Int := none
deriving DecidableEq

/-- `metadata["entitlements"]`. -/
structure EntitlementsMap where
  entitlement_count : Option Int := none
deriving DecidableEq

/-- `metadata["surveys"]`. -/
structure SurveysMap where
  count : Option Int := none
deriving DecidableEq

/-- `metadata["macros"]`. -/
structure MacrosMap where
  macro_count : Option Int := none
  quick_text_count : Option Int := none
deriving DecidableEq

/-- `metadata["reports"]`. -/
structure ReportsMap where
  service_reports : Option Int := none
deriving DecidableEq

/-- One record of `metadata["bots"]`; the source reads `b.get("Status")`. -/
structure BotRecord where
  status : Option String := none
deriving DecidableEq

/-- One record of `metadata["networks"]`; the source reads `n.get("Status")`. -/
structure NetworkRecord where
  status : Option String := none
deriving DecidableEq

/-- The metadata snapshot.  Every field models a top-level key of the
dict produced by the fetcher; a `none` models an absent key, matching
the `metadata.get(key, default)` accesses of the source. -/
structure Metadata where
  org_id : Option String := none
  instance_url : Option String := none
  object_record_counts : Option (List (String × Int)) := none
  apex_classes : Option (List String) := none
  flows : Option FlowsMap := none
  service_channels : Option (List String) := none
  bots : Option (List BotRecord) := none
  knowledge : Option KnowledgeMap := none
  entitlements : Option EntitlementsMap := none
  networks : Option (List NetworkRecord) := none
  surveys : Option SurveysMap := none
  macros : Option MacrosMap := none
  reports : Option ReportsMap := none

/-- The `FeatureResult` dataclass. -/
structure FeatureResult where
  id : String
  name : String
  category : String
  status : Status
  impact_score : Int
  adoption_signals : List String
  gaps : List String
  recommendation : String
  roi_metric : String
  doc_url : String
  license_requirement : String
  confidence : ℚ := 1
deriving DecidableEq

/-- The `CategoryResult` dataclass. -/
structure CategoryResult where
  id : String
  name : String
  total_features : Nat
  used_count : Nat
  partial_count : Nat
  unused_count : Nat
  adoption_pct : ℚ
  features : List FeatureResult := []
deriving DecidableEq

/-!
## SOQL object extraction (`_extract_soql_object`, lines 343-350)

Python:
```
parts = soql.upper().split("FROM")
if len(parts) > 1:
    return parts[1].strip().split()[0].lower().replace("__kav", "")
return None
```
`parts[1].strip().split()[0]` raises `IndexError` when the segment
after the first `FROM` holds no non-whitespace character, so the
embedding returns `Option (Option String)`: the outer `none` is a
raised exception, `some none` is Python's `None`.
-/

/-- Split a character list at the first occurrence of `FROM`,
returning the part before and the part after. -/
def split_from : List Char → Option (List Char × List Char)
  | 'F' :: 'R' :: 'O' :: 'M' :: rest => some ([], rest)
  | c :: cs => (split_from cs).map (fun p => (c :: p.1, p.2))
  | [] => none

/-- `soql.upper().split("FROM")[1]` when it exists: the segment
between the first occurrence of `FROM` and the next one (or the end). -/
def from_part1 (l : List Char) : Option (List Char) :=
  (split_from l).map (fun p =>
    match split_from p.2 with
    | some q => q.1
    | none => p.2)

/-- Python `str.split()`: maximal runs of non-whitespace characters. -/
def split_ws (l : List Char) : List (List Char) :=
  (l.foldr
    (fun c acc =>
      if c.isWhitespace then [] :: acc
      else
        match acc with
        | [] => [[c]]
        | g :: gs => (c :: g) :: gs)
    [[]]).filter (fun g => !g.isEmpty)

/-- Delete every occurrence of `__kav` (Python `.replace("__kav", "")`,
applied after lowercasing). -/
def strip_kav : List Char → List Char
  | '_' :: '_' :: 'k' :: 'a' :: 'v' :: rest => strip_kav rest
  | c :: cs => c :: strip_kav cs
  | [] => []

/-- `FeatureAnalyzer._extract_soql_object`.  Outer `none` = raised
`IndexError`; `some none` = returned `None`. -/
def extract_soql_object (soql : String) : Option (Option String) :=
  if soql = "" then some none
  else
    match from_part1 (soql.toList.map Char.toUpper) with
    | none => some none
    | some seg =>
      match split_ws seg with
      | [] => none
      | t :: _ => some (some (String.mk (strip_kav (t.map Char.toLower))))

/-!
## The numbered steps of `_analyze_feature` (lines 172-238)
-/

/-- Step 1, the object record count check: one signal or gap per entry
of `detection.object_names`, starting from empty lists. -/
def object_count_check (object_names : List String)
    (obj_counts : List (String × Int)) : List String × List String :=
  object_names.foldl
    (fun sg obj =>
      let count := (obj_counts.lookup obj).getD (-1)
      if count > 0 then (sg.1 ++ [s!"Object '{obj}' has {comma_fmt count} records"], sg.2)
      else if count = 0 then (sg.1, sg.2 ++ [s!"Object '{obj}' exists but has no records"])
      else (sg.1, sg.2 ++ [s!"Object '{obj}' not found or not accessible"]))
    ([], [])

/-- Step 2, the SOQL-derived secondary object check, given the value
`soql_obj` returned by the extractor.  Runs the positive/zero count
logic only for a truthy object name not already listed in
`object_names`; a negative (sentinel) count adds nothing. -/
def soql_check_step (soql_obj : Option String) (object_names : List String)
    (obj_counts : List (String × Int)) (sg : List String × List String) :
    List String × List String :=
  match soql_obj with
  | some o =>
    if o ≠ "" ∧ ¬ o ∈ object_names then
      let count := (obj_counts.lookup o).getD (-1)
      if count > 0 then (sg.1 ++ [s!"Detected activity on {o} ({comma_fmt count} records)"], sg.2)
      else if count = 0 then (sg.1, sg.2 ++ [s!"No records found in {o}"])
      else sg
    else sg
  | none => sg

/-- Step 3, Apex class detection: case-insensitive substring match of
each hint against the org's class list. -/
def apex_class_check (hints org_classes : List String)
    (sg : List String × List String) : List String × List String :=
  hints.foldl
    (fun sg cls =>
      if org_classes.any (fun c => str_contains c.toLower cls.toLower) then
        (sg.1 ++ [s!"Custom Apex class '{cls}' detected"], sg.2)
      else (sg.1, sg.2 ++ [s!"Expected Apex class '{cls}' not found"]))
    sg

/-- Step 4, the Flow check, applied when the feature id contains
`Flow` or `flow`.  The signal branch subscripts `flows['total']`
directly (a fallible access, guarded by `flows.get("total", 0) > 0`). -/
def flow_check (feat_id : String) (flows : FlowsMap)
    (sg : List String × List String) : Option (List String × List String) :=
  if str_contains feat_id "Flow" || str_contains feat_id "flow" then
    if flows.total.getD 0 > 0 then
      match flows.total with
      | some t =>
        some (sg.1 ++ [s!"Active Flows found: {t}"],
          if flows.total.getD 0 < 5 then
            sg.2 ++ ["Very few flows configured — significant automation potential remains"]
          else sg.2)
      | none => none
    else some (sg.1, sg.2 ++ ["No active Flows found"])
  else some (sg.1, sg.2)

/-- Step 5, `_feature_specific_checks` (lines 240-341): the special
cased rules keyed on the feature id.  Raw subscripts
(`ents['entitlement_count']`, `surveys['count']`,
`macros['macro_count']`, `macros['quick_text_count']`,
`reports['service_reports']`) are fallible accesses guarded by the
preceding `.get(..., 0) > 0` tests. -/
def feature_specific_checks (feat_id : String) (metadata : Metadata)
    (sg : List String × List String) : Option (List String × List String) :=
  let counts := metadata.object_record_counts.getD []
  if feat_id = "omni_channel" then
    let channels := metadata.service_channels.getD []
    if channels ≠ [] then
      some (sg.1 ++ [s!"Omni-Channel: {channels.length} service channel(s) configured"], sg.2)
    else some (sg.1, sg.2 ++ ["No Omni-Channel service channels configured"])
  else if feat_id = "einstein_bots" then
    let bots := metadata.bots.getD []
    if bots ≠ [] then
      let active := bots.filter (fun b => b.status == some "Active")
      some (sg.1 ++ [s!"Einstein Bots: {active.length} active bot(s) found"],
        if active = [] then sg.2 ++ ["Bots exist but none are Active"] else sg.2)
    else some (sg.1, sg.2 ++ ["No Einstein Bots configured"])
  else if feat_id = "salesforce_knowledge" then
    let knowledge := metadata.knowledge.getD {}
    if knowledge.enabled.getD false then
      some (sg.1 ++ [s!"Knowledge enabled with {comma_fmt (knowledge.article_count.getD 0)} articles"],
        if knowledge.article_count.getD 0 < 50 then
          sg.2 ++ ["Article library is small — insufficient for effective self-service"]
        else sg.2)
    else some (sg.1, sg.2 ++ ["Salesforce Knowledge not enabled"])
  else if feat_id = "entitlements_sla" then
    let ents := metadata.entitlements.getD {}
    if ents.entitlement_count.getD 0 > 0 then
      match ents.entitlement_count with
      | some c => some (sg.1 ++ [s!"Entitlements configured: {comma_fmt c} records"], sg.2)
      | none => none
    else some (sg.1, sg.2 ++ ["No Entitlement records found — SLAs not being tracked"])
  else if feat_id = "experience_cloud_portal" then
    let networks := metadata.networks.getD []
    if networks ≠ [] then
      let active := networks.filter (fun n => n.status == some "Live")
      some (sg.1 ++ [s!"Experience Cloud: {networks.length} site(s), {active.length} live"], sg.2)
    else some (sg.1, sg.2 ++ ["No Experience Cloud sites found"])
  else if feat_id = "flow_automation" then
    let flows := metadata.flows.getD {}
    let total_flows := flows.total.getD 0
    if total_flows ≥ 10 then
      some (sg.1 ++ [s!"Good flow coverage: {total_flows} active flows"], sg.2)
    else if total_flows > 0 then
      some (sg.1 ++ [s!"Some flows active: {total_flows}"],
        sg.2 ++ [s!"Only {total_flows} flows — consider expanding automation coverage"])
    else some (sg.1, sg.2 ++ ["No active flows — missing major automation opportunity"])
  else if feat_id = "csat_surveys" then
    let surveys := metadata.surveys.getD {}
    if surveys.count.getD 0 > 0 then
      match surveys.count with
      | some c => some (sg.1 ++ [s!"Surveys configured: {c}"], sg.2)
      | none => none
    else some (sg.1, sg.2 ++ ["No surveys configured — no systematic CSAT measurement"])
  else if feat_id = "macros" then
    let macros := metadata.macros.getD {}
    let stepA : Option (List String × List String) :=
      if macros.macro_count.getD 0 > 0 then
        match macros.macro_count with
        | some c => some (sg.1 ++ [s!"Macros: {c} configured"], sg.2)
        | none => none
      else some (sg.1, sg.2 ++ ["No macros found — agents doing repetitive tasks manually"])
    match stepA with
    | none => none
    | some sg =>
      if macros.quick_text_count.getD 0 > 0 then
        match macros.quick_text_count with
        | some c => some (sg.1 ++ [s!"Quick Text: {c} entries"], sg.2)
        | none => none
      else some (sg.1, sg.2 ++ ["No Quick Text entries — missing response template library"])
  else if feat_id = "service_analytics" then
    let reports := metadata.reports.getD {}
    if reports.service_reports.getD 0 ≥ 5 then
      match reports.service_reports with
      | some c => some (sg.1 ++ [s!"Service reports found: {c}"], sg.2)
      | none => none
    else if reports.service_reports.getD 0 > 0 then
      match reports.service_reports with
      | some c =>
        some (sg.1 ++ [s!"Some service reports: {c}"],
          sg.2 ++ ["Limited service reporting — consider expanding dashboards"])
      | none => none
    else some (sg.1, sg.2 ++ ["No service-specific reports or dashboards found"])
  else if feat_id = "live_chat" then
    let chat_count := (counts.lookup "LiveChatTranscript").getD (-1)
    if chat_count > 0 then
      some (sg.1 ++ [s!"Live chat transcripts: {comma_fmt chat_count}"], sg.2)
    else some (sg.1, sg.2 ++ ["No chat transcripts — Live Chat not in use"])
  else if feat_id = "service_cloud_voice" then
    let voice_count := (counts.lookup "VoiceCall").getD (-1)
    if voice_count > 0 then
      some (sg.1 ++ [s!"Voice calls recorded: {comma_fmt voice_count}"], sg.2)
    else some (sg.1, sg.2 ++ ["No VoiceCall records — Service Cloud Voice not configured"])
  else
    some sg

/-- Steps 3 to 6 of `_analyze_feature`, from the signal/gap state left
after the SOQL check.  Returns `none` when a raw subscript in step 4
or 5 would raise. -/
def rest_of_analysis (feat : Feature) (metadata : Metadata)
    (sg : List String × List String) : Option FeatureResult :=
  let sg := apex_class_check feat.detection.apex_classes (metadata.apex_classes.getD []) sg
  match flow_check feat.id (metadata.flows.getD {}) sg with
  | none => none
  | some sg =>
    match feature_specific_checks feat.id metadata sg with
    | none => none
    | some sg =>
      let (st, confidence) := determine_status sg.1 sg.2
      some
        { id := feat.id
          name := feat.name
          category := feat.category
          status := st
          impact_score := feat.impact_score
          adoption_signals := sg.1
          gaps := sg.2
          recommendation := feat.recommendation
          roi_metric := feat.roi_metric
          doc_url := feat.doc_url
          license_requirement := feat.license_requirement
          confidence := confidence }

/-- `FeatureAnalyzer._analyze_feature`: the full per-feature pipeline.
`none` models a raised exception (possible only from the SOQL
extractor's `IndexError` edge and the guarded raw subscripts). -/
def analyze_feature (feat : Feature) (metadata : Metadata) : Option FeatureResult :=
  let obj_counts := metadata.object_record_counts.getD []
  let sg := object_count_check feat.detection.object_names obj_counts
  match extract_soql_object feat.detection.soql_check with
  | none => none
  | some soql_obj =>
    rest_of_analysis feat metadata
      (soql_check_step soql_obj feat.detection.object_names obj_counts sg)

/-- The same feature with the count query removed (used to state that
the secondary-object check is skipped). -/
def erase_soql (feat : Feature) : Feature :=
  { feat with detection := { feat.detection with soql_check := "" } }

/-!
## C7: robustness of the evaluator against missing snapshot keys
-/

lemma flow_check_isSome (feat_id : String) (flows : FlowsMap)
    (sg : List String × List String) : (flow_check feat_id flows sg).isSome := by
  unfold flow_check
  by_cases hid : (str_contains feat_id "Flow" || str_contains feat_id "flow") = true
  · rw [if_pos hid]
    cases ht : flows.total with
    | none => simp [ht]
    | some t => by_cases hpos : t > 0 <;> simp [ht, hpos]
  · rw [if_neg hid]
    simp

lemma feature_specific_checks_isSome (feat_id : String) (metadata : Metadata)
    (sg : List String × List String) :
    (feature_specific_checks feat_id metadata sg).isSome := by
  unfold feature_specific_checks
  dsimp only
  by_cases h1 : feat_id = "omni_channel"
  · rw [if_pos h1]; split <;> simp
  rw [if_neg h1]
  by_cases h2 : feat_id = "einstein_bots"
  · rw [if_pos h2]; split <;> simp
  rw [if_neg h2]
  by_cases h3 : feat_id = "salesforce_knowledge"
  · rw [if_pos h3]; split <;> simp
  rw [if_neg h3]
  by_cases h4 : feat_id = "entitlements_sla"
  · rw [if_pos h4]
    cases hc : (metadata.entitlements.getD {}).entitlement_count with
    | none => simp [hc]
    | some c => by_cases hpos : c > 0 <;> simp [hc, hpos]
  rw [if_neg h4]
  by_cases h5 : feat_id = "experience_cloud_portal"
  · rw [if_pos h5]; split <;> simp
  rw [if_neg h5]
  by_cases h6 : feat_id = "flow_automation"
  · rw [if_pos h6]
    split
    · simp
    · split <;> simp
  rw [if_neg h6]
  by_cases h7 : feat_id = "csat_surveys"
  · rw [if_pos h7]
    cases hc : (metadata.surveys.getD {}).count with
    | none => simp [hc]
    | some c => by_cases hpos : c > 0 <;> simp [hc, hpos]
  rw [if_neg h7]
  by_cases h8 : feat_id = "macros"
  · rw [if_pos h8]
    cases hmc : (metadata.macros.getD {}).macro_count with
    | none =>
      cases hqc : (metadata.macros.getD {}).quick_text_count with
      | none => simp [hmc, hqc]
      | some q => by_cases hq : q > 0 <;> simp [hmc, hqc, hq]
    | some c =>
      cases hqc : (metadata.macros.getD {}).quick_text_count with
      | none => by_cases hc : c > 0 <;> simp [hmc, hqc, hc]
      | some q => by_cases hc : c > 0 <;> by_cases hq : q > 0 <;> simp [hmc, hqc, hc, hq]
  rw [if_neg h8]
  by_cases h9 : feat_id = "service_analytics"
  · rw [if_pos h9]
    cases hr : (metadata.reports.getD {}).service_reports with
    | none => simp [hr]
    | some c =>
      by_cases h5c : c ≥ 5
      · simp [hr, h5c]
      · by_cases hpos : c > 0 <;> simp [hr, h5c, hpos]
  rw [if_neg h9]
  by_cases h10 : feat_id = "live_chat"
  · rw [if_pos h10]; split <;> simp
  rw [if_neg h10]
  by_cases h11 : feat_id = "service_cloud_voice"
  · rw [if_pos h11]; split <;> simp
  rw [if_neg h11]
  simp

lemma rest_of_analysis_isSome (feat : Feature) (metadata : Metadata)
    (sg : List String × List String) : (rest_of_analysis feat metadata sg).isSome := by
  unfold rest_of_analysis
  have hf := flow_check_isSome feat.id (metadata.flows.getD {})
    (apex_class_check feat.detection.apex_classes (metadata.apex_classes.getD []) sg)
  cases hfc : flow_check feat.id (metadata.flows.getD {})
      (apex_class_check feat.detection.apex_classes (metadata.apex_classes.getD []) sg) with
  | none => rw [hfc] at hf; simp at hf
  | some sg4 =>
    have hs := feature_specific_checks_isSome feat.id metadata sg4
    cases hsc : feature_specific_checks feat.id metadata sg4 with
    | none => rw [hsc] at hs; simp at hs
    | some sg5 => simp [hfc, hsc]

/-- C7 (amended): whenever the feature's count query does not trigger
the extractor's `IndexError` edge, the evaluator is total — any
snapshot, including one missing every expected key, yields a
`FeatureResult` and never an exception. -/
theorem analyze_feature_total (feat : Feature) (metadata : Metadata)
    (hq : extract_soql_object feat.detection.soql_check ≠ none) :
    (analyze_feature feat metadata).isSome := by
  unfold analyze_feature
  cases hx : extract_soql_object feat.detection.soql_check with
  | none => exact absurd hx hq
  | some soql_obj =>
    simp only []
    exact rest_of_analysis_isSome feat metadata _

/-- Witness for C7: a feature with a well-formed count query analyzed
against the empty snapshot. -/
theorem analyze_feature_total_witness :
    extract_soql_object (Feature.mk "case_management" "Case Management"
        "" 90 { object_names := ["Case"], soql_check := "SELECT COUNT() FROM Case" }
        "" "" "" "Service Cloud").detection.soql_check ≠ none ∧
      (analyze_feature (Feature.mk "case_management" "Case Management"
        "" 90 { object_names := ["Case"], soql_check := "SELECT COUNT() FROM Case" }
        "" "" "" "Service Cloud") {}).isSome :=
  ⟨by decide,
    analyze_feature_total _ {} (by decide)⟩

/-- Counterexample for C7 as frozen: a feature definition whose count
query text ends at `FROM` makes `_extract_soql_object` evaluate
`"".strip().split()[0]`, which raises `IndexError`, so no
`FeatureResult` is produced. -/
theorem analyze_feature_raises_counterexample :
    analyze_feature (Feature.mk "case_management" "Case Management"
        "" 90 { soql_check := "SELECT COUNT() FROM" } "" "" "" "Service Cloud") {} = none := by
  decide

/-!
## C8: the derived-object check is conditional and silently skippable
-/

/-- C8: when the count query names a secondary object that is already
covered by `object_names`, or whose snapshot count is the negative
sentinel (absent / not queryable), the whole analysis is identical to
analyzing the same feature with no count query at all: the check adds
no signal and no gap. -/
theorem soql_secondary_skip (feat : Feature) (metadata : Metadata) (o : String)
    (hx : extract_soql_object feat.detection.soql_check = some (some o))
    (hskip : o ∈ feat.detection.object_names ∨
      ((metadata.object_record_counts.getD []).lookup o).getD (-1) < 0) :
    analyze_feature feat metadata = analyze_feature (erase_soql feat) metadata := by
  unfold analyze_feature
  rw [hx]
  have hz : extract_soql_object (erase_soql feat).detection.soql_check = some none := rfl
  rw [hz]
  have hstep : ∀ sg, soql_check_step (some o) feat.detection.object_names
      (metadata.object_record_counts.getD []) sg = sg := by
    intro sg
    unfold soql_check_step
    dsimp only
    rcases hskip with hmem | hneg
    · rw [if_neg]
      intro hcon
      exact hcon.2 hmem
    · by_cases hc : o ≠ "" ∧ ¬ o ∈ feat.detection.object_names
      · rw [if_pos hc]
        have h1 : ¬ ((metadata.object_record_counts.getD []).lookup o).getD (-1) > 0 := by omega
        have h2 : ¬ ((metadata.object_record_counts.getD []).lookup o).getD (-1) = 0 := by omega
        rw [if_neg h1, if_neg h2]
      · rw [if_neg hc]
  have hnone : ∀ sg, soql_check_step none (erase_soql feat).detection.object_names
      (metadata.object_record_counts.getD []) sg = sg := fun _ => rfl
  have hobj : (erase_soql feat).detection.object_names = feat.detection.object_names := rfl
  dsimp only
  rw [hstep, hnone, hobj]
  unfold rest_of_analysis erase_soql
  rfl

/-- Witness for C8: a live-chat feature whose count query names
`LiveChatTranscript`, absent from the empty snapshot — the analysis
equals the one with the query removed. -/
theorem soql_secondary_skip_witness :
    extract_soql_object (Feature.mk "live_chat" "Live Chat" "" 70
        { soql_check := "SELECT COUNT() FROM LiveChatTranscript" } "" "" "" "Service Cloud"
        ).detection.soql_check = some (some "livechattranscript") ∧
      ((({} : Metadata).object_record_counts.getD []).lookup "livechattranscript").getD (-1) < 0 ∧
      analyze_feature (Feature.mk "live_chat" "Live Chat" "" 70
          { soql_check := "SELECT COUNT() FROM LiveChatTranscript" } "" "" "" "Service Cloud") {} =
        analyze_feature (erase_soql (Feature.mk "live_chat" "Live Chat" "" 70
          { soql_check := "SELECT COUNT() FROM LiveChatTranscript" } "" "" "" "Service Cloud")) {} :=
  ⟨by decide, by decide,
    soql_secondary_skip _ {} "livechattranscript" (by decide) (Or.inr (by decide))⟩

/-!
## Rounding

Python's builtin `round(x, 1)` rounds half to even.  On the exact
rationals used in this embedding that is `round1` below.
-/

/-- Round a rational to the nearest integer, ties to the even one
(Python's `round`). -/
def round_half_even (x : ℚ) : ℤ :=
  let n := ⌊x⌋
  let r := x - (n : ℚ)
  if r < 1/2 then n
  else if 1/2 < r then n + 1
  else if n % 2 = 0 then n else n + 1

/-- Python's `round(x, 1)`. -/
def round1 (x : ℚ) : ℚ := (round_half_even (x * 10) : ℚ) / 10

lemma round_half_even_nonneg (x : ℚ) (hx : 0 ≤ x) : 0 ≤ round_half_even x := by
  unfold round_half_even
  dsimp only
  have hf : (0 : ℤ) ≤ ⌊x⌋ := Int.floor_nonneg.mpr hx
  split_ifs <;> omega

lemma round_half_even_le (x : ℚ) (n : ℤ) (hx : x ≤ (n : ℚ)) : round_half_even x ≤ n := by
  unfold round_half_even
  dsimp only
  have hf : ⌊x⌋ ≤ n := by
    have := Int.floor_le_floor hx
    simpa using this
  by_cases hlt : x - (⌊x⌋ : ℚ) < 1/2
  · simp only [hlt, if_true]
    exact hf
  · have hge : (1:ℚ)/2 ≤ x - (⌊x⌋ : ℚ) := le_of_not_lt hlt
    have hne : ⌊x⌋ ≠ n := by
      intro he
      rw [he] at hge
      have : x - (n : ℚ) ≤ 0 := by linarith
      linarith
    have hf1 : ⌊x⌋ + 1 ≤ n := by omega
    split_ifs <;> omega

lemma round_half_even_intCast (n : ℤ) : round_half_even ((n : ℚ)) = n := by
  unfold round_half_even
  dsimp only
  have hf : ⌊(n : ℚ)⌋ = n := Int.floor_intCast n
  rw [hf]
  have hr : (n : ℚ) - (n : ℚ) = 0 := by ring
  rw [hr]
  norm_num

lemma round1_nonneg (x : ℚ) (hx : 0 ≤ x) : 0 ≤ round1 x := by
  unfold round1
  have h := round_half_even_nonneg (x * 10) (by linarith)
  have : (0 : ℚ) ≤ (round_half_even (x * 10) : ℚ) := by exact_mod_cast h
  linarith

lemma round1_le_hundred (x : ℚ) (hx : x ≤ 100) : round1 x ≤ 100 := by
  unfold round1
  have h : round_half_even (x * 10) ≤ (1000 : ℤ) := by
    apply round_half_even_le
    push_cast
    linarith
  have : (round_half_even (x * 10) : ℚ) ≤ 1000 := by exact_mod_cast h
  linarith

lemma round1_hundred : round1 100 = 100 := by
  unfold round1
  have : (100 : ℚ) * 10 = ((1000 : ℤ) : ℚ) := by norm_num
  rw [this, round_half_even_intCast]
  norm_num

lemma round1_zero : round1 0 = 0 := by
  unfold round1
  have : (0 : ℚ) * 10 = ((0 : ℤ) : ℚ) := by norm_num
  rw [this, round_half_even_intCast]
  norm_num

/-!
## Aggregation (`analyze`, lines 120-144)
-/

/-- `max_score = sum(f.impact_score for f in all_features)`. -/
def max_score (all_features : List FeatureResult) : Int :=
  (all_features.map (fun f => f.impact_score)).sum

/-- `earned`: full impact for `used`, half for `partial`, zero for
`unused`. -/
def earned (all_features : List FeatureResult) : ℚ :=
  (all_features.map (fun f =>
    if f.status = Status.used then (f.impact_score : ℚ)
    else if f.status = Status.partialUse then (f.impact_score : ℚ) * 0.5
    else 0)).sum

/-- `weighted_score = round(earned / max_score * 100, 1) if max_score else 0`. -/
def weighted_score (all_features : List FeatureResult) : ℚ :=
  if max_score all_features ≠ 0 then
    round1 (earned all_features / (max_score all_features : ℚ) * 100)
  else 0

lemma earned_eq_max_of_all_used (fs : List FeatureResult)
    (h : ∀ f ∈ fs, f.status = Status.used) :
    earned fs = ((max_score fs : Int) : ℚ) := by
  induction fs with
  | nil => simp [earned, max_score]
  | cons f t ih =>
    have hf : f.status = Status.used := h f (by simp)
    have ht : ∀ g ∈ t, g.status = Status.used := fun g hg => h g (by simp [hg])
    unfold earned max_score at ih ⊢
    simp only [List.map_cons, List.sum_cons, hf, if_true]
    rw [ih ht]
    push_cast
    ring

lemma earned_eq_zero_of_all_unused (fs : List FeatureResult)
    (h : ∀ f ∈ fs, f.status = Status.unused) :
    earned fs = 0 := by
  induction fs with
  | nil => simp [earned]
  | cons f t ih =>
    have hf : f.status = Status.unused := h f (by simp)
    have ht : ∀ g ∈ t, g.status = Status.unused := fun g hg => h g (by simp [hg])
    have : earned t = 0 := ih ht
    simp [earned, hf] at this ⊢
    simpa [earned] using this

/-- C2 (amended): the overall weighted score is 100 whenever every
feature is `used` and the total impact weight is nonzero, and 0
whenever every feature is `unused`. -/
theorem weighted_score_extremes (fs : List FeatureResult) :
    ((∀ f ∈ fs, f.status = Status.used) → max_score fs ≠ 0 → weighted_score fs = 100) ∧
      ((∀ f ∈ fs, f.status = Status.unused) → weighted_score fs = 0) := by
  constructor
  · intro hall hmax
    unfold weighted_score
    rw [if_pos hmax, earned_eq_max_of_all_used fs hall]
    have hmq : ((max_score fs : Int) : ℚ) ≠ 0 := by exact_mod_cast hmax
    rw [div_self hmq]
    simpa using round1_hundred
  · intro hall
    unfold weighted_score
    by_cases hmax : max_score fs ≠ 0
    · rw [if_pos hmax, earned_eq_zero_of_all_unused fs hall]
      simpa using round1_zero
    · rw [if_neg hmax]

/-- Witness for C2's amended theorem at concrete inputs. -/
theorem weighted_score_extremes_witness :
    weighted_score [FeatureResult.mk "a" "A" "" Status.used 90 ["s"] [] "" "" "" "" 0.95] = 100 ∧
      weighted_score [FeatureResult.mk "a" "A" "" Status.unused 90 [] ["g"] "" "" "" "" 0.9] = 0 :=
  ⟨(weighted_score_extremes _).1 (by decide) (by decide),
    (weighted_score_extremes _).2 (by decide)⟩

/-- Counterexample for C2 as frozen: a single `used` feature of impact
weight 0 makes the maximum possible impact 0, so the score falls into
the `if max_score else 0` branch and is 0, not 100. -/
theorem weighted_score_all_used_not_hundred :
    (∀ f ∈ [FeatureResult.mk "a" "A" "" Status.used 0 ["s"] [] "" "" "" "" 0.95],
      f.status = Status.used) ∧
      weighted_score [FeatureResult.mk "a" "A" "" Status.used 0 ["s"] [] "" "" "" "" 0.95] ≠ 100 := by
  constructor
  · decide
  · decide

/-!
## Category scoring (`_score_category`, lines 380-397)
-/

/-- `FeatureAnalyzer._score_category`. -/
def score_category (cat_id cat_name : String)
    (feature_results : List FeatureResult) : CategoryResult :=
  let used := feature_results.countP (fun f => f.status == Status.used)
  let partialC := feature_results.countP (fun f => f.status == Status.partialUse)
  let unused := feature_results.countP (fun f => f.status == Status.unused)
  let total := feature_results.length
  let pct : ℚ :=
    if total ≠ 0 then round1 (((used : ℚ) + (partialC : ℚ) * 0.5) / (total : ℚ) * 100) else 0
  { id := cat_id
    name := cat_name
    total_features := total
    used_count := used
    partial_count := partialC
    unused_count := unused
    adoption_pct := pct
    features := feature_results }

/-- The adoption-percentage formula as the spec words it, from the
category's counts. -/
def spec_adoption_pct (used partialC total : Nat) : ℚ :=
  if total = 0 then 0 else round1 (((used : ℚ) + (partialC : ℚ) * 0.5) / (total : ℚ) * 100)

lemma count_three_statuses (fs : List FeatureResult) :
    fs.countP (fun f => f.status == Status.used) +
      fs.countP (fun f => f.status == Status.partialUse) +
      fs.countP (fun f => f.status == Status.unused) = fs.length := by
  induction fs with
  | nil => simp
  | cons f t ih =>
    rw [List.countP_cons, List.countP_cons, List.countP_cons]
    cases hst : f.status <;> simp [hst] <;> omega

/-- C5 (amended): the category counts always add up to the total, the
adoption percentage follows the spec formula on those counts, stays in
`[0, 100]`, and equals 100 whenever the category is nonempty and every
feature in it is `used`. -/
theorem score_category_invariants (cat_id cat_name : String) (fs : List FeatureResult) :
    (score_category cat_id cat_name fs).used_count +
        (score_category cat_id cat_name fs).partial_count +
        (score_category cat_id cat_name fs).unused_count =
      (score_category cat_id cat_name fs).total_features ∧
    (score_category cat_id cat_name fs).adoption_pct =
      spec_adoption_pct (score_category cat_id cat_name fs).used_count
        (score_category cat_id cat_name fs).partial_count
        (score_category cat_id cat_name fs).total_features ∧
    (0 ≤ (score_category cat_id cat_name fs).adoption_pct ∧
      (score_category cat_id cat_name fs).adoption_pct ≤ 100) ∧
    (fs ≠ [] → (∀ f ∈ fs, f.status = Status.used) →
      (score_category cat_id cat_name fs).adoption_pct = 100) := by
  unfold score_category spec_adoption_pct
  dsimp only
  have hsum := count_three_statuses fs
  refine ⟨hsum, ?_, ?_, ?_⟩
  · by_cases ht : fs.length = 0
    · simp [ht]
    · simp [ht]
  · by_cases ht : fs.length = 0
    · simp [ht]
    · have htpos : 0 < fs.length := Nat.pos_of_ne_zero ht
      have htq : (0 : ℚ) < (fs.length : ℚ) := by exact_mod_cast htpos
      simp only [ht, ne_eq, not_false_eq_true, if_true]
      set u := fs.countP (fun f => f.status == Status.used) with hu
      set p := fs.countP (fun f => f.status == Status.partialUse) with hp
      have hle : (u : ℚ) + (p : ℚ) * 0.5 ≤ (fs.length : ℚ) := by
        have : u + p ≤ fs.length := by omega
        have hq : (u : ℚ) + (p : ℚ) ≤ (fs.length : ℚ) := by exact_mod_cast this
        have hpn : (0 : ℚ) ≤ (p : ℚ) := by positivity
        nlinarith
      have hnn : (0 : ℚ) ≤ (u : ℚ) + (p : ℚ) * 0.5 := by positivity
      constructor
      · apply round1_nonneg
        positivity
      · apply round1_le_hundred
        rw [div_mul_eq_mul_div, div_le_iff₀ htq]
        nlinarith
  · intro hne hall
    have ht : fs.length ≠ 0 := by
      cases fs with
      | nil => exact absurd rfl hne
      | cons a l => simp
    simp only [ht, ne_eq, not_false_eq_true, if_true]
    have hu : fs.countP (fun f => f.status == Status.used) = fs.length := by
      rw [List.countP_eq_length]
      intro f hf
      simp [hall f hf]
    have hp : fs.countP (fun f => f.status == Status.partialUse) = 0 := by
      rw [List.countP_eq_zero]
      intro f hf
      simp [hall f hf]
    rw [hu, hp]
    have htq : ((fs.length : Nat) : ℚ) ≠ 0 := by
      exact_mod_cast ht
    have hc : (((0 : Nat) : ℚ)) = 0 := by norm_num
    rw [hc]
    have : ((fs.length : ℚ) + (0 : ℚ) * 0.5) / (fs.length : ℚ) * 100 = 100 := by
      field_simp
    rw [this]
    exact round1_hundred

/-- Witness for C5's amended theorem at a concrete category. -/
theorem score_category_invariants_witness :
    ([FeatureResult.mk "a" "A" "" Status.used 90 ["s"] [] "" "" "" "" 0.95] ≠
        ([] : List FeatureResult)) ∧
      (score_category "svc" "Service"
        [FeatureResult.mk "a" "A" "" Status.used 90 ["s"] [] "" "" "" "" 0.95]).adoption_pct = 100 :=
  ⟨by decide,
    (score_category_invariants "svc" "Service" _).2.2.2 (by decide) (by decide)⟩

/-- Counterexample for C5 as frozen: for an empty category the
percentage is 0 (by the `total == 0` guard) while the claim's
"every feature `used` gives 100" clause applies vacuously — the two
requirements contradict, so the claim as stated fails. -/
theorem score_category_empty_not_hundred :
    (∀ f ∈ ([] : List FeatureResult), f.status = Status.used) ∧
      (score_category "svc" "Service" ([] : List FeatureResult)).adoption_pct ≠ 100 := by
  constructor
  · decide
  · decide

/-!
## Gap ranking (`analyze`, lines 136-142)

Python's `sorted(key=lambda x: x.impact_score, reverse=True)` is a
stable descending sort; it is embedded as insertion sort under the
"impact at least as large" relation, which is stable and sorts
descending, hence computes the same permutation.
-/

/-- The descending-impact comparison used by the gap ranking. -/
def imp_desc (a b : FeatureResult) : Prop := b.impact_score ≤ a.impact_score

instance : DecidableRel imp_desc :=
  fun a b => inferInstanceAs (Decidable (b.impact_score ≤ a.impact_score))

instance : IsTotal FeatureResult imp_desc :=
  ⟨fun a b => le_total b.impact_score a.impact_score⟩

instance : IsTrans FeatureResult imp_desc :=
  ⟨fun _ _ _ h1 h2 => le_trans h2 h1⟩

/-- Whether a feature counts as a gap:
`f.status in (STATUS_UNUSED, STATUS_PARTIAL)`. -/
def is_gap (f : FeatureResult) : Bool :=
  decide (f.status = Status.unused ∨ f.status = Status.partialUse)

/-- `unused_sorted`: the gap features, stable-sorted by descending
impact score. -/
def unused_sorted (all_features : List FeatureResult) : List FeatureResult :=
  List.insertionSort imp_desc (all_features.filter is_gap)

/-- `top_gaps = unused_sorted[:10]`. -/
def top_gaps (all_features : List FeatureResult) : List FeatureResult :=
  (unused_sorted all_features).take 10

/-- `quick_wins = [f for f in unused_sorted if f.impact_score >= 75][:5]`. -/
def quick_wins (all_features : List FeatureResult) : List FeatureResult :=
  ((unused_sorted all_features).filter (fun f => decide (f.impact_score ≥ 75))).take 5

lemma filter_eq_takeWhile_of_sorted :
    ∀ l : List FeatureResult, List.Pairwise imp_desc l →
      l.filter (fun f => decide (f.impact_score ≥ 75)) =
        l.takeWhile (fun f => decide (f.impact_score ≥ 75)) := by
  intro l hl
  induction l with
  | nil => rfl
  | cons a t ih =>
    have hfirst : ∀ b ∈ t, imp_desc a b := (List.pairwise_cons.mp hl).1
    have htail : List.Pairwise imp_desc t := (List.pairwise_cons.mp hl).2
    by_cases hp : a.impact_score ≥ 75
    · simp [List.filter_cons, List.takeWhile_cons, hp, ih htail]
    · simp only [List.filter_cons, List.takeWhile_cons, hp, decide_False, if_neg,
        Bool.false_eq_true, if_false]
      rw [List.filter_eq_nil_iff]
      intro b hb
      have hle : b.impact_score ≤ a.impact_score := hfirst b hb
      simp only [decide_eq_true_eq]
      omega

lemma mem_take_takeWhile_mem_take (p : FeatureResult → Bool) :
    ∀ (l : List FeatureResult) (n m : Nat), n ≤ m →
      ∀ x ∈ (l.takeWhile p).take n, x ∈ l.take m := by
  intro l
  induction l with
  | nil =>
    intro n m _ x hx
    simp [List.takeWhile] at hx
  | cons a t ih =>
    intro n m hnm x hx
    by_cases hp : p a = true
    · rw [List.takeWhile_cons, if_pos hp] at hx
      cases n with
      | zero => simp at hx
      | succ n' =>
        cases m with
        | zero => omega
        | succ m' =>
          rw [List.take_succ_cons] at hx ⊢
          rcases List.mem_cons.mp hx with rfl | hx'
          · exact List.mem_cons_self _ _
          · exact List.mem_cons_of_mem _ (ih n' m' (by omega) x hx')
    · rw [List.takeWhile_cons, if_neg hp] at hx
      simp at hx

lemma filter_key_orderedInsert (k : Int) (a : FeatureResult) (l : List FeatureResult) :
    (List.orderedInsert imp_desc a l).filter (fun f => decide (f.impact_score = k)) =
      if a.impact_score = k then a :: l.filter (fun f => decide (f.impact_score = k))
      else l.filter (fun f => decide (f.impact_score = k)) := by
  induction l with
  | nil =>
    simp only [List.orderedInsert, List.filter_cons, List.filter_nil]
    by_cases ha : a.impact_score = k <;> simp [ha]
  | cons b t ih =>
    rw [List.orderedInsert]
    by_cases hr : imp_desc a b
    · rw [if_pos hr]
      rw [List.filter_cons, List.filter_cons]
      by_cases ha : a.impact_score = k <;> by_cases hb : b.impact_score = k <;>
        simp [ha, hb, List.filter_cons]
    · rw [if_neg hr]
      rw [List.filter_cons, ih, List.filter_cons]
      by_cases ha : a.impact_score = k <;> by_cases hb : b.impact_score = k
      · exfalso
        apply hr
        unfold imp_desc
        omega
      · simp [ha, hb]
      · simp [ha, hb]
      · simp [ha, hb]

lemma insertionSort_filter_key (k : Int) :
    ∀ l : List FeatureResult,
      (List.insertionSort imp_desc l).filter (fun f => decide (f.impact_score = k)) =
        l.filter (fun f => decide (f.impact_score = k)) := by
  intro l
  induction l with
  | nil => rfl
  | cons a t ih =>
    rw [List.insertionSort, filter_key_orderedInsert, ih, List.filter_cons]
    by_cases ha : a.impact_score = k <;> simp [ha]

/-- C4: the top-gaps list is sorted by non-increasing impact (ties
keeping original encounter order: filtering any fixed impact value out
of the sorted gap list returns it in registry order), contains only
`unused`/`partial` features, and caps at 10; quick-wins is a subset of
top-gaps, every member has impact at least 75, and it caps at 5. -/
theorem top_gaps_quick_wins_spec (fs : List FeatureResult) :
    List.Sorted imp_desc (top_gaps fs) ∧
    (∀ f ∈ top_gaps fs, f.status = Status.unused ∨ f.status = Status.partialUse) ∧
    (top_gaps fs).length ≤ 10 ∧
    (∀ f ∈ quick_wins fs, f ∈ top_gaps fs) ∧
    (∀ f ∈ quick_wins fs, 75 ≤ f.impact_score) ∧
    (quick_wins fs).length ≤ 5 ∧
    (∀ k : Int, (unused_sorted fs).filter (fun f => decide (f.impact_score = k)) =
      (fs.filter is_gap).filter (fun f => decide (f.impact_score = k))) := by
  have hsorted : List.Sorted imp_desc (unused_sorted fs) :=
    List.sorted_insertionSort imp_desc (fs.filter is_gap)
  have hperm : List.Perm (unused_sorted fs) (fs.filter is_gap) :=
    List.perm_insertionSort imp_desc (fs.filter is_gap)
  refine ⟨?_, ?_, ?_, ?_, ?_, ?_, ?_⟩
  · exact hsorted.sublist (List.take_sublist 10 _)
  · intro f hf
    have hmem : f ∈ unused_sorted fs := List.take_subset 10 _ hf
    have hfil : f ∈ fs.filter is_gap := hperm.subset hmem
    have := (List.mem_filter.mp hfil).2
    unfold is_gap at this
    exact of_decide_eq_true this
  · exact List.length_take_le 10 _
  · intro f hf
    unfold quick_wins at hf
    rw [filter_eq_takeWhile_of_sorted _ hsorted] at hf
    exact mem_take_takeWhile_mem_take (fun f => decide (f.impact_score ≥ 75))
      (unused_sorted fs) 5 10 (by omega) f hf
  · intro f hf
    unfold quick_wins at hf
    have hmem : f ∈ (unused_sorted fs).filter (fun f => decide (f.impact_score ≥ 75)) :=
      List.take_subset 5 _ hf
    have := (List.mem_filter.mp hmem).2
    exact of_decide_eq_true this
  · exact List.length_take_le 5 _
  · intro k
    exact insertionSort_filter_key k (fs.filter is_gap)

/-- Witness for C4 at a concrete feature list. -/
theorem top_gaps_quick_wins_spec_witness :
    (FeatureResult.mk "a" "A" "" Status.unused 90 [] ["g"] "" "" "" "" 1) ∈
        quick_wins [FeatureResult.mk "a" "A" "" Status.unused 90 [] ["g"] "" "" "" "" 1] ∧
      (FeatureResult.mk "a" "A" "" Status.unused 90 [] ["g"] "" "" "" "" 1) ∈
        top_gaps [FeatureResult.mk "a" "A" "" Status.unused 90 [] ["g"] "" "" "" "" 1] :=
  ⟨by decide,
    (top_gaps_quick_wins_spec [FeatureResult.mk "a" "A" "" Status.unused 90 [] ["g"] "" "" ""
      "" 1]).2.2.2.1 _ (by decide)⟩

/-!
## Roadmap construction (`_build_roadmap`, lines 402-449)
-/

/-- The fixed add-on keyword list of `_build_roadmap`. -/
def add_on_keywords : List String :=
  ["Add-on", "Einstein", "Voice", "Field Service", "Workforce", "Digital Engagement"]

/-- `is_addon = any(kw in feat.license_requirement for kw in add_on_keywords)`. -/
def is_addon (f : FeatureResult) : Bool :=
  add_on_keywords.any (fun kw => str_contains f.license_requirement kw)

/-- `is_ai = "Einstein" in feat.license_requirement`. -/
def is_ai (f : FeatureResult) : Bool :=
  str_contains f.license_requirement "Einstein"

/-- One entry of the `phases` list built by `_build_roadmap`. -/
structure RoadmapPhase where
  phase : Nat := 0
  title : String := ""
  subtitle : String := ""
  timeline : String := ""
  features : List FeatureResult := []
  effort : String := ""
deriving Inhabited

/-- The loop body of `_build_roadmap`: distribute each feature, in
order, into phase 1 (impact at least 80 and not an add-on), else
phase 3 (Einstein license), else phase 2. -/
def bucket : List FeatureResult →
    List FeatureResult × List FeatureResult × List FeatureResult
  | [] => ([], [], [])
  | f :: fs =>
    let rest := bucket fs
    if 80 ≤ f.impact_score ∧ is_addon f = false then (f :: rest.1, rest.2.1, rest.2.2)
    else if is_ai f then (rest.1, rest.2.1, f :: rest.2.2)
    else (rest.1, f :: rest.2.1, rest.2.2)

/-- `FeatureAnalyzer._build_roadmap`: the three phases with their
static display metadata and the bucketed feature lists. -/
def build_roadmap (unused_features : List FeatureResult) : List RoadmapPhase :=
  let b := bucket unused_features
  [ { phase := 1
      title := "Quick Wins"
      subtitle := "High-impact features on your existing license"
      timeline := "Weeks 1–4"
      features := b.1
      effort := "Low" },
    { phase := 2
      title := "Core Expansion"
      subtitle := "Extend key service capabilities"
      timeline := "Months 2–3"
      features := b.2.1
      effort := "Medium" },
    { phase := 3
      title := "Advanced Transformation"
      subtitle := "AI features and add-on products"
      timeline := "Months 4–6"
      features := b.2.2
      effort := "High" } ]

lemma bucket_eq_filters : ∀ l : List FeatureResult,
    bucket l =
      (l.filter (fun f => decide (80 ≤ f.impact_score ∧ is_addon f = false)),
        l.filter (fun f => !(decide (80 ≤ f.impact_score ∧ is_addon f = false)) && !(is_ai f)),
        l.filter (fun f => !(decide (80 ≤ f.impact_score ∧ is_addon f = false)) && is_ai f)) := by
  intro l
  induction l with
  | nil => rfl
  | cons a t ih =>
    unfold bucket
    dsimp only
    rw [ih]
    by_cases h1 : 80 ≤ a.impact_score ∧ is_addon a = false
    · simp [List.filter_cons, h1]
    · have h1' : a.impact_score < 80 ∨ is_addon a = true := by
        by_cases hb : is_addon a = true
        · exact Or.inr hb
        · left
          have hbf : is_addon a = false := by
            cases hab : is_addon a
            · rfl
            · exact absurd hab hb
          by_contra hlt
          push_neg at hlt
          exact h1 ⟨hlt, hbf⟩
      by_cases h2 : is_ai a = true
      · simp [List.filter_cons, h1, h1', h2]
      · have h2f : is_ai a = false := by
          cases hai : is_ai a
          · rfl
          · exact absurd hai h2
        simp [List.filter_cons, h1, h1', h2f]

/-- The feature list of the i-th roadmap phase built from the gap list
of `all_features` (index 0 = Phase 1, 1 = Phase 2, 2 = Phase 3). -/
def roadmap_phase_features (all_features : List FeatureResult) (i : Nat) : List FeatureResult :=
  ((build_roadmap (unused_sorted all_features)).getD i default).features

lemma count_filter_zero {p : FeatureResult → Bool} {f : FeatureResult} (hp : p f = false)
    (l : List FeatureResult) : (l.filter p).count f = 0 := by
  rw [List.count_eq_zero]
  intro hmem
  have h := (List.mem_filter.mp hmem).2
  rw [hp] at h
  exact Bool.false_ne_true h

lemma count_filter_pos {p : FeatureResult → Bool} {f : FeatureResult} (hp : p f = true) :
    ∀ l : List FeatureResult, (l.filter p).count f = l.count f := by
  intro l
  induction l with
  | nil => rfl
  | cons a t ih =>
    rw [List.filter_cons]
    by_cases ha : p a = true
    · simp only [ha, if_true, List.count_cons, ih]
    · have haf : p a = false := by
        cases h : p a
        · rfl
        · exact absurd h ha
      have hne : (a == f) = false := by
        by_cases he : a = f
        · subst he
          rw [hp] at haf
          simp at haf
        · simp [he]
      simp only [haf, Bool.false_eq_true, if_false, ih, List.count_cons, hne]
      simp

/-- C3: the three roadmap phases partition the non-`used` features —
every occurrence of an `unused`/`partial` feature lands in exactly one
phase, `used` features land in none — and membership follows the
impact/license rules of `_build_roadmap`. -/
theorem roadmap_partition (fs : List FeatureResult) :
    (∀ f : FeatureResult,
      (roadmap_phase_features fs 0).count f + (roadmap_phase_features fs 1).count f +
        (roadmap_phase_features fs 2).count f = (fs.filter is_gap).count f) ∧
    (∀ f : FeatureResult, f.status = Status.used →
      f ∉ roadmap_phase_features fs 0 ∧ f ∉ roadmap_phase_features fs 1 ∧
        f ∉ roadmap_phase_features fs 2) ∧
    (∀ f : FeatureResult, f ∈ roadmap_phase_features fs 0 ↔
      f ∈ fs.filter is_gap ∧ 80 ≤ f.impact_score ∧ is_addon f = false) ∧
    (∀ f : FeatureResult, f ∈ roadmap_phase_features fs 2 ↔
      f ∈ fs.filter is_gap ∧ ¬(80 ≤ f.impact_score ∧ is_addon f = false) ∧ is_ai f = true) ∧
    (∀ f : FeatureResult, f ∈ roadmap_phase_features fs 1 ↔
      f ∈ fs.filter is_gap ∧ ¬(80 ≤ f.impact_score ∧ is_addon f = false) ∧ is_ai f = false) := by
  have hb := bucket_eq_filters (unused_sorted fs)
  have e0 : roadmap_phase_features fs 0 =
      (unused_sorted fs).filter (fun f => decide (80 ≤ f.impact_score ∧ is_addon f = false)) := by
    unfold roadmap_phase_features build_roadmap
    rw [hb]
    rfl
  have e1 : roadmap_phase_features fs 1 =
      (unused_sorted fs).filter
        (fun f => !(decide (80 ≤ f.impact_score ∧ is_addon f = false)) && !(is_ai f)) := by
    unfold roadmap_phase_features build_roadmap
    rw [hb]
    rfl
  have e2 : roadmap_phase_features fs 2 =
      (unused_sorted fs).filter
        (fun f => !(decide (80 ≤ f.impact_score ∧ is_addon f = false)) && is_ai f) := by
    unfold roadmap_phase_features build_roadmap
    rw [hb]
    rfl
  have hperm : List.Perm (unused_sorted fs) (fs.filter is_gap) :=
    List.perm_insertionSort imp_desc (fs.filter is_gap)
  refine ⟨?_, ?_, ?_, ?_, ?_⟩
  · intro f
    rw [e0, e1, e2]
    rw [← hperm.count_eq]
    by_cases hc1 : (80 ≤ f.impact_score ∧ is_addon f = false)
    · rw [count_filter_pos (by simp [hc1]) (unused_sorted fs),
        count_filter_zero (by simp [hc1]) (unused_sorted fs),
        count_filter_zero (by simp [hc1]) (unused_sorted fs)]
      omega
    · by_cases hai : is_ai f = true
      · rw [count_filter_zero (by simp [hc1]) (unused_sorted fs),
          count_filter_zero (by simp [hc1, hai]) (unused_sorted fs),
          count_filter_pos (by simp [hc1, hai]) (unused_sorted fs)]
        omega
      · have haif : is_ai f = false := by
          cases h : is_ai f
          · rfl
          · exact absurd h hai
        rw [count_filter_zero (by simp [hc1]) (unused_sorted fs),
          count_filter_pos (by simp [hc1, haif]) (unused_sorted fs),
          count_filter_zero (by simp [hc1, haif]) (unused_sorted fs)]
        omega
  · intro f hused
    have hnotgap : f ∉ fs.filter is_gap := by
      intro hmem
      have h := (List.mem_filter.mp hmem).2
      unfold is_gap at h
      have := of_decide_eq_true h
      rcases this with h1 | h1 <;> rw [hused] at h1 <;> exact Status.noConfusion h1
    refine ⟨?_, ?_, ?_⟩ <;> intro hmem
    · rw [e0] at hmem
      exact hnotgap (hperm.subset (List.mem_of_mem_filter hmem))
    · rw [e1] at hmem
      exact hnotgap (hperm.subset (List.mem_of_mem_filter hmem))
    · rw [e2] at hmem
      exact hnotgap (hperm.subset (List.mem_of_mem_filter hmem))
  · intro f
    rw [e0, List.mem_filter, hperm.mem_iff]
    simp
  · intro f
    rw [e2, List.mem_filter, hperm.mem_iff]
    simp [not_and, Bool.not_eq_true]
    intro _ _ _
    constructor
    · rintro (hlt | hab) h80
      · omega
      · exact hab
    · intro himp
      by_cases h80 : 80 ≤ f.impact_score
      · exact Or.inr (himp h80)
      · exact Or.inl (by omega)
  · intro f
    rw [e1, List.mem_filter, hperm.mem_iff]
    simp [not_and, Bool.not_eq_true]
    intro _ _ _
    constructor
    · rintro (hlt | hab) h80
      · omega
      · exact hab
    · intro himp
      by_cases h80 : 80 ≤ f.impact_score
      · exact Or.inr (himp h80)
      · exact Or.inl (by omega)

/-- Witness for C3: a `used` feature lands in no phase. -/
theorem roadmap_partition_witness :
    (FeatureResult.mk "a" "A" "" Status.used 90 ["s"] [] "" "" "" "" 1).status = Status.used ∧
      (FeatureResult.mk "a" "A" "" Status.used 90 ["s"] [] "" "" "" "" 1) ∉
        roadmap_phase_features [FeatureResult.mk "a" "A" "" Status.used 90 ["s"] [] "" "" "" "" 1] 0 :=
  ⟨rfl,
    ((roadmap_partition [FeatureResult.mk "a" "A" "" Status.used 90 ["s"] [] "" "" "" "" 1]).2.1
      (FeatureResult.mk "a" "A" "" Status.used 90 ["s"] [] "" "" "" "" 1) rfl).1⟩

/-!
## Registry loading and the analysis driver (C9)

`FeatureAnalyzer.__init__` reads the registry JSON and immediately
subscripts `self.registry['product']` and `['version']` (the log
line), so a document missing either key raises `KeyError` before any
analysis.  `analyze` then subscripts `self.registry["feature_categories"]`
before its loop, `cat["features"]` per category, `feat["id"]`/`feat["name"]`
per feature (inside `_analyze_feature`), and `_score_category`
subscripts `cat["id"]`/`cat["name"]` after a category's features were
analyzed.  The driver below records, in order, every `FeatureResult`
completed before a raise, plus an error flag (`true` = raised). -/

/-- A feature entry of the registry document: `id`/`name` are read
with raw subscripts, everything else with `.get` defaults. -/
structure FeatDoc where
  id : Option String := none
  name : Option String := none
  category : String := ""
  impact_score : Int := 50
  detection : Detection := {}
  recommendation : String := ""
  roi_metric : String := ""
  doc_url : String := ""
  license_requirement : String := "Service Cloud"

/-- A category entry of the registry document. -/
structure CatDoc where
  id : Option String := none
  name : Option String := none
  features : Option (List FeatDoc) := none

/-- The registry document. -/
structure RegistryDoc where
  product : Option String := none
  version : Option String := none
  feature_categories : Option (List CatDoc) := none

/-- `_analyze_feature` on a document entry: raises when `id` or `name`
is missing, otherwise analyzes the typed feature. -/
def analyze_feature_doc (f : FeatDoc) (m : Metadata) : Option FeatureResult := do
  let i ← f.id
  let n ← f.name
  analyze_feature
    { id := i
      name := n
      category := f.category
      impact_score := f.impact_score
      detection := f.detection
      recommendation := f.recommendation
      roi_metric := f.roi_metric
      doc_url := f.doc_url
      license_requirement := f.license_requirement } m

/-- `FeatureAnalyzer.__init__`: fails iff `product` or `version` is
missing. -/
def analyzer_init (r : RegistryDoc) : Option RegistryDoc := do
  let _ ← r.product
  let _ ← r.version
  some r

/-- The inner loop of `analyze` over one category's features:
completed results so far, plus whether a raise interrupted it. -/
def run_feats (m : Metadata) : List FeatDoc → List FeatureResult × Bool
  | [] => ([], false)
  | f :: fs =>
    match analyze_feature_doc f m with
    | none => ([], true)
    | some r =>
      let rest := run_feats m fs
      (r :: rest.1, rest.2)

/-- The outer loop of `analyze` over categories, including the
`_score_category` subscripts of `cat["id"]`/`cat["name"]` that run
after a category's features were analyzed. -/
def run_cats (m : Metadata) : List CatDoc → List FeatureResult × Bool
  | [] => ([], false)
  | c :: cs =>
    match c.features with
    | none => ([], true)
    | some fs =>
      let fr := run_feats m fs
      if fr.2 then fr
      else
        match c.id, c.name with
        | some _, some _ =>
          let rest := run_cats m cs
          (fr.1 ++ rest.1, rest.2)
        | _, _ => (fr.1, true)

/-- Loading plus `analyze`: the per-feature results completed before
any raise, and whether the run raised. -/
def run_analysis (r : RegistryDoc) (m : Metadata) : List FeatureResult × Bool :=
  match analyzer_init r with
  | none => ([], true)
  | some r0 =>
    match r0.feature_categories with
    | none => ([], true)
    | some cats => run_cats m cats

/-- Structural validity of a registry document — the "required fields"
of the data model: `product`, `version`, `feature_categories`, each
category's `id`/`name`/`features`, each feature's `id`/`name`. -/
def registry_valid (r : RegistryDoc) : Bool :=
  r.product.isSome && r.version.isSome &&
    (match r.feature_categories with
     | none => false
     | some cats =>
       cats.all fun c =>
         c.id.isSome && c.name.isSome &&
           (match c.features with
            | none => false
            | some fs => fs.all fun f => f.id.isSome && f.name.isSome))

/-- C9 (amended): when a top-level required field of the registry
document (`product`, `version` or `feature_categories`) is missing,
the failure surfaces before any per-feature analysis: the run raises
and the completed-result list is empty. -/
theorem registry_top_level_invalid_stops (r : RegistryDoc) (m : Metadata)
    (h : r.product = none ∨ r.version = none ∨ r.feature_categories = none) :
    run_analysis r m = ([], true) := by
  unfold run_analysis analyzer_init
  rcases h with h | h | h
  · simp [h]
  · cases hp : r.product <;> simp [hp, h]
  · cases hp : r.product <;> cases hv : r.version <;> simp [hp, hv, h]

/-- Witness for C9's amended theorem. -/
theorem registry_top_level_invalid_stops_witness :
    (RegistryDoc.mk none (some "1.0") none).product = none ∧
      run_analysis (RegistryDoc.mk none (some "1.0") none) {} = ([], true) :=
  ⟨rfl, registry_top_level_invalid_stops _ {} (Or.inl rfl)⟩

/-- Counterexample for C9 as frozen: a registry whose second category
is missing its required `features` field is structurally invalid, yet
the run analyzes the first category's feature before raising — so
"no per-feature analysis is performed" fails. -/
theorem registry_invalid_partial_analysis_counterexample :
    registry_valid
        (RegistryDoc.mk (some "Service Cloud for Service") (some "1.0")
          (some
            [CatDoc.mk (some "c1") (some "Cat 1") (some [{ id := some "f1", name := some "F1" }]),
             CatDoc.mk (some "c2") (some "Cat 2") none])) = false ∧
      (run_analysis
          (RegistryDoc.mk (some "Service Cloud for Service") (some "1.0")
            (some
              [CatDoc.mk (some "c1") (some "Cat 1") (some [{ id := some "f1", name := some "F1" }]),
               CatDoc.mk (some "c2") (some "Cat 2") none])) {}).2 = true ∧
      (run_analysis
          (RegistryDoc.mk (some "Service Cloud for Service") (some "1.0")
            (some
              [CatDoc.mk (some "c1") (some "Cat 1") (some [{ id := some "f1", name := some "F1" }]),
               CatDoc.mk (some "c2") (some "Cat 2") none])) {}).1.length = 1 := by
  refine ⟨by decide, by decide, by decide⟩
